import Mathlib

/-
Verification development for two espnet source files:
  * espnet2/nlu/token_classification.py   (LinearDecoder)
  * espnet2/st/espnet_model_md_samp.py    (ESPnetSTMDSampModel)

The PyTorch code is shallowly embedded:
  * float tensors are an abstract type parameter `T`; external submodules
    (frontend+encoder chain, decoders, CTC module, criteria, metric
    calculators) are function-valued fields of the model record, applied
    exactly as the source applies them;
  * integer token tensors are `List (List Int)` (a padded batch of rows),
    length tensors are `List Nat`;
  * scalar loss values carry their Python runtime type (`tensor`/`float`/
    `int`) and an autograd-attachment flag, so that `.detach()` and the
    `type(loss_asr) is not float` checks of the source are represented;
  * Python exceptions (AssertionError, AttributeError for a missing
    `self.ctc` attribute, NameError for the unbound `speech_out` /
    `speech_lens` locals) are an `Except` error type;
  * `random.uniform(0, 1)` is passed in as an explicit rational argument.
-/

/-- A padded batch of integer token rows (a 2-D integer tensor). -/
abbrev Toks := List (List Int)

/-- A 1-D tensor of sequence lengths. -/
abbrev Lens := List Nat

/-- Python runtime errors that the embedded code can raise. -/
inductive PyErr where
  | assertionError
  | attributeError
  | nameError
deriving DecidableEq, Repr

/-- A Python scalar as it flows through the loss computation: a torch
tensor (with its value and whether it is attached to the autograd graph),
a Python float, or a Python int. -/
inductive PyNum where
  | tensor (v : ℚ) (grad : Bool)
  | pfloat (v : ℚ)
  | pint (n : ℤ)
deriving DecidableEq, Repr

namespace PyNum

/-- Whether the scalar is a torch tensor. -/
def isTensor : PyNum → Bool
  | .tensor _ _ => true
  | _ => false

/-- Whether the scalar is a Python float (`type(x) is float`). -/
def isFloat : PyNum → Bool
  | .pfloat _ => true
  | _ => false

/-- The numeric value of the scalar. -/
def val : PyNum → ℚ
  | .tensor v _ => v
  | .pfloat v => v
  | .pint n => (n : ℚ)

/-- Whether the scalar is a tensor attached to the autograd graph. -/
def gradOf : PyNum → Bool
  | .tensor _ g => g
  | _ => false

/-- Python `*` with torch promotion: any tensor operand makes the result a
tensor (attached iff some tensor operand is attached); otherwise int*int is
an int and any float operand makes a float. -/
def mul (a b : PyNum) : PyNum :=
  if a.isTensor || b.isTensor then .tensor (a.val * b.val) (a.gradOf || b.gradOf)
  else match a, b with
    | .pint x, .pint y => .pint (x * y)
    | _, _ => .pfloat (a.val * b.val)

/-- Python `+` with the same promotion rule as `PyNum.mul`. -/
def add (a b : PyNum) : PyNum :=
  if a.isTensor || b.isTensor then .tensor (a.val + b.val) (a.gradOf || b.gradOf)
  else match a, b with
    | .pint x, .pint y => .pint (x + y)
    | _, _ => .pfloat (a.val + b.val)

/-- `torch.Tensor.detach`: same value, removed from the autograd graph.
(The source only ever calls it on tensors; on the other variants this
embedding is the identity.) -/
def detach : PyNum → PyNum
  | .tensor v _ => .tensor v false
  | x => x

end PyNum

/-- One value of the `stats` dictionary: a numeric loss entry or an
optional reported metric. -/
inductive StatVal where
  | num (x : PyNum)
  | metric (x : Option ℚ)
deriving DecidableEq, Repr

/-- The `(loss, stats, weight)` triple returned by `forward` (after
`force_gatherable`, which moves values to the device and tensorises the
scalar batch size without changing any value). -/
structure FwdOut where
  loss : PyNum
  stats : List (String × StatVal)
  weight : ℕ
deriving DecidableEq, Repr

/-! ## List helpers used by the source -/

/-- `t.max()` for a 1-D length tensor (0 on an empty batch). -/
def listMax (l : List ℕ) : ℕ := l.foldr max 0

/-- `t[:, :n]`: keep the first `n` columns of every row. -/
def sliceCols (t : Toks) (n : ℕ) : Toks := t.map (fun row => row.take n)

/-- `[x[0] for x in groupby(ys)]`: collapse each run of equal consecutive
tokens to a single token. -/
def collapseGroups : List ℤ → List ℤ
  | [] => []
  | [x] => [x]
  | x :: y :: rest =>
    if x = y then collapseGroups (y :: rest) else x :: collapseGroups (y :: rest)

/-- The per-row transcript of the CTC-sampling branch before padding:
collapse duplicate runs, drop blanks (token id 0), and when the result is
empty fall back to the row's `src_text` tokens with `-1` entries removed. -/
def rowCore (rawRow srcRow : List ℤ) : List ℤ :=
  let c := (collapseGroups rawRow).filter (fun t => t ≠ 0)
  if c = [] then srcRow.filter (fun t => t ≠ -1) else c

/-- Lines 203-207 of the source: collapse/deblank every argmax row, then
replace empty rows by the filtered `src_text` row of the same index. -/
def sampRows (raw src : Toks) : Toks :=
  let collapsed := raw.map (fun ys => (collapseGroups ys).filter (fun t => t ≠ 0))
  (List.range collapsed.length).map (fun i =>
    let ys := collapsed.getD i []
    if ys = [] then (src.getD i []).filter (fun t => t ≠ -1) else ys)

/-- `pad_sequence(batch_first=True, padding_value=p)`: right-pad every row
to the length of the longest row. -/
def padSequence (rows : Toks) (padval : ℤ) : Toks :=
  let maxLen := listMax (rows.map (fun r => r.length))
  rows.map (fun r => r ++ List.replicate (maxLen - r.length) padval)

/-- Lines 202-210 of the source: the padded self-generated transcript batch
together with the pre-padding row lengths (`ys_hat`, `ys_hat_lens`). -/
def sampTranscript (raw src : Toks) : Toks × Lens :=
  let rows := sampRows raw src
  (padSequence rows (-1), rows.map (fun r => r.length))

/-! ## espnet2/nlu/token_classification.py -/

/-- `LinearDecoder`: the stored `_num_labels` and the parameters of the
single `torch.nn.Linear(encoder_output_size, num_labels)` layer
(`weight : [num_labels, encoder_output_size]`, `bias : [num_labels]`). -/
structure LinearDecoder where
  encoder_output_size : ℕ
  numLabelsStored : ℕ
  weight : List (List ℚ)
  bias : List ℚ

/-- Dot product of two equal-length vectors. -/
def dotQ (a b : List ℚ) : ℚ := (List.zipWith (fun x y => x * y) a b).sum

/-- One application of a `torch.nn.Linear` layer to a feature vector:
`y j = (weight j) . x + bias j`. -/
def affineQ (weight : List (List ℚ)) (bias : List ℚ) (x : List ℚ) : List ℚ :=
  List.zipWith (fun wrow bj => dotQ wrow x + bj) weight bias

namespace LinearDecoder

/-- `LinearDecoder.__init__`: store `_num_labels` and create the linear
layer; `w j f` and `b j` are the (framework-initialised) parameter entries,
materialised with the shapes `nn.Linear(encoder_output_size, num_labels)`
allocates. In the source `num_labels` defaults to 2 (see `initDefault`). -/
def init (encoder_output_size num_labels : ℕ)
    (w : ℕ → ℕ → ℚ) (b : ℕ → ℚ) : LinearDecoder :=
  { encoder_output_size := encoder_output_size
    numLabelsStored := num_labels
    weight := (List.range num_labels).map (fun j =>
      (List.range encoder_output_size).map (fun f => w j f))
    bias := (List.range num_labels).map (fun j => b j) }

/-- Construction with the source's default argument `num_labels = 2`. -/
def initDefault (encoder_output_size : ℕ) (w : ℕ → ℕ → ℚ) (b : ℕ → ℚ) :
    LinearDecoder :=
  init encoder_output_size 2 w b

/-- `LinearDecoder.forward`: apply the linear layer to the whole
`[Batch, T, F]` input; the `ilens` argument is accepted and ignored. -/
def forward (d : LinearDecoder) (input : List (List (List ℚ))) (_ilens : List ℕ) :
    List (List (List ℚ)) :=
  input.map (fun bt => bt.map (fun x => affineQ d.weight d.bias x))

/-- The `num_labels` property. -/
def num_labels (d : LinearDecoder) : ℕ := d.numLabelsStored

end LinearDecoder

/-! ## espnet2/st/espnet_model_md_samp.py — data model

External numeric submodules are abstract function-valued parameters over
the abstract float-tensor type `T`.  The `encode` field stands for the
whole frontend/specaug/normalize/preencoder/encoder/postencoder chain of
`ESPnetSTMDSampModel.encode` (lines 310-355), whose internals no claim
depends on. -/

/-- The `CTC` module object passed to the constructor: greedy per-frame
argmax (already collapsed to token-id rows) and the CTC loss. -/
structure CTCMod (T : Type) where
  argmax : T → Toks
  closs : T → Lens → Toks → Lens → ℚ

/-- The `ASRErrorCalculator`: `(cer, wer)` on attention hypotheses, and
CER on CTC hypotheses (`is_ctc=True`). -/
structure ASRErrCalc where
  calcAtt : Toks → Toks → ℚ × ℚ
  calcCtc : Toks → Toks → ℚ

/-- The abstract neural submodules of the model. `asr_decoder` returns
`(decoder_out, hs_dec_asr)` (it is called with `return_hidden=True`);
`decoder` optionally receives the `(speech, speech_lens)` pair of the
speech-attention call form; `tArgmax` is `t.argmax(dim=-1)` on a float
tensor; `shape0` is `t.shape[0]`. -/
structure Submods (T : Type) where
  shape0 : T → ℕ
  encode : T → Lens → T × Lens
  encoder_mt : T → Lens → T × Lens
  asr_decoder : T → Lens → Toks → Lens → T × T
  decoder : T → Lens → Toks → Lens → Option T → Option Lens → T
  tArgmax : T → Toks
  add_sos_eos : Toks → ℤ → ℤ → ℤ → Toks × Toks
  th_accuracy : T → ℤ → Toks → ℤ → ℚ

/-- The constructed `ESPnetSTMDSampModel` state.  `ctc_arg` is the `ctc`
object handed to the constructor; `has_ctc` records whether the
`self.ctc` attribute was actually set (lines 128-129 set it only when
`mtlalpha > 0`).  `training` is the `nn.Module` train/eval flag. -/
structure Model (T : Type) where
  vocab_size : ℤ
  src_vocab_size : ℤ
  sos : ℤ
  eos : ℤ
  src_sos : ℤ
  src_eos : ℤ
  ignore_id : ℤ
  asr_weight : ℚ
  mt_weight : ℚ
  mtlalpha : ℚ
  ctc_sample_rate : ℚ
  token_list : List String
  src_token_list : List String
  speech_attn : Bool
  training : Bool
  extract_feats_in_collect_stats : Bool
  sub : Submods T
  ctc_arg : CTCMod T
  has_ctc : Bool
  criterion_st : T → Toks → ℚ
  criterion_asr : T → Toks → ℚ
  mt_error_calculator : Option (Toks → Toks → ℚ)
  asr_error_calculator : Option ASRErrCalc

/-- Result of `_calc_asr_att_loss`. -/
structure AsrAttRes (T : Type) where
  loss_att : PyNum
  acc_att : ℚ
  cer_att : Option ℚ
  wer_att : Option ℚ
  hs_dec_asr : T

/-- Result of `_calc_mt_att_loss`. -/
structure MtAttRes where
  loss_att : PyNum
  acc_att : ℚ
  bleu_att : Option ℚ
deriving DecidableEq, Repr

/-- Result of `_calc_ctc_loss`. -/
structure CtcRes where
  loss_ctc : PyNum
  cer_ctc : Option ℚ
deriving DecidableEq, Repr

/-- The merged result of the sampling / teacher-forced branch of `forward`
(lines 201-231) together with `dec_asr_lengths` (lines 242-245, which
re-test the identical `self.training and do_ctc_sample` condition). -/
structure AsrBranchRes (T : Type) where
  loss_asr_att : PyNum
  acc_asr_att : Option ℚ
  cer_asr_att : Option ℚ
  wer_asr_att : Option ℚ
  hs_dec_asr : T
  dec_asr_lengths : Lens

namespace Model

variable {T : Type}

/-- Line 200-201: the stochastic switch `self.training and
random.uniform(0, 1) < self.ctc_sample_rate`, with the uniform draw `u`
passed in explicitly. -/
def doSamp (m : Model T) (u : ℚ) : Bool :=
  m.training && decide (u < m.ctc_sample_rate)

/-- `_calc_asr_att_loss` (lines 415-445): sos/eos augmentation, ASR
decoder with `return_hidden=True`, label-smoothing loss, accuracy, and
cer/wer only outside training when the calculator exists. -/
def calcAsrAttLoss (m : Model T) (encoder_out : T) (encoder_out_lens : Lens)
    (ys_pad : Toks) (ys_pad_lens : Lens) : AsrAttRes T :=
  let sEos := m.sub.add_sos_eos ys_pad m.src_sos m.src_eos m.ignore_id
  let ys_in_pad := sEos.1
  let ys_out_pad := sEos.2
  let ys_in_lens := ys_pad_lens.map (fun l => l + 1)
  let dec := m.sub.asr_decoder encoder_out encoder_out_lens ys_in_pad ys_in_lens
  let decoder_out := dec.1
  let hs_dec_asr := dec.2
  let loss_att := PyNum.tensor (m.criterion_asr decoder_out ys_out_pad) true
  let acc_att := m.sub.th_accuracy decoder_out m.src_vocab_size ys_out_pad m.ignore_id
  let cw : Option ℚ × Option ℚ :=
    if m.training then (none, none)
    else match m.asr_error_calculator with
      | none => (none, none)
      | some ec =>
        let ys_hat := m.sub.tArgmax decoder_out
        let p := ec.calcAtt ys_hat ys_pad
        (some p.1, some p.2)
  ⟨loss_att, acc_att, cw.1, cw.2, hs_dec_asr⟩

/-- `_calc_mt_att_loss` (lines 376-413): sos/eos augmentation, ST decoder
(with the speech-attention call form when `speech_attn`), label-smoothing
loss, accuracy, and BLEU only outside training when the calculator
exists. -/
def calcMtAttLoss (m : Model T) (encoder_out : T) (encoder_out_lens : Lens)
    (ys_pad : Toks) (ys_pad_lens : Lens) (speech : T) (speech_lens : Lens) :
    MtAttRes :=
  let sEos := m.sub.add_sos_eos ys_pad m.sos m.eos m.ignore_id
  let ys_in_pad := sEos.1
  let ys_out_pad := sEos.2
  let ys_in_lens := ys_pad_lens.map (fun l => l + 1)
  let decoder_out :=
    if m.speech_attn then
      m.sub.decoder encoder_out encoder_out_lens ys_in_pad ys_in_lens
        (some speech) (some speech_lens)
    else
      m.sub.decoder encoder_out encoder_out_lens ys_in_pad ys_in_lens none none
  let loss_att := PyNum.tensor (m.criterion_st decoder_out ys_out_pad) true
  let acc_att := m.sub.th_accuracy decoder_out m.vocab_size ys_out_pad m.ignore_id
  let bleu_att :=
    if m.training then none
    else match m.mt_error_calculator with
      | none => none
      | some ec => some (ec (m.sub.tArgmax decoder_out) ys_pad)
  ⟨loss_att, acc_att, bleu_att⟩

/-- `_calc_ctc_loss` (lines 447-462): CTC loss via `self.ctc`, and CER on
the CTC argmax only outside training when the calculator exists. -/
def calcCtcLoss (m : Model T) (encoder_out : T) (encoder_out_lens : Lens)
    (ys_pad : Toks) (ys_pad_lens : Lens) : CtcRes :=
  let loss_ctc := PyNum.tensor (m.ctc_arg.closs encoder_out encoder_out_lens ys_pad ys_pad_lens) true
  let cer_ctc :=
    if m.training then none
    else match m.asr_error_calculator with
      | none => none
      | some ec => some (ec.calcCtc (m.ctc_arg.argmax encoder_out) ys_pad)
  ⟨loss_ctc, cer_ctc⟩

end Model

namespace Model

variable {T : Type}

/-- Every intermediate value of a returning `forward` pass (the body of
lines 190-271 after the guards have been established).  `ys_hat` /
`ys_hat_lens` correspond to lines 202-210, executed in the source only when
`samp` holds; here they are defined unconditionally but consumed only when
`samp` holds.  `mt` receives `encoder_out` / `encoder_out_lens` as the
`speech_out` / `speech_lens` locals of lines 248-250, which are bound on
every returning pass (`speech_attn` is forced true by `forward`). -/
structure Inter (T : Type) where
  batch_size : ℕ
  text : Toks
  src_text : Toks
  encoder_out : T
  encoder_out_lens : Lens
  do_ctc_sample : Bool
  samp : Bool
  ys_hat : Toks
  ys_hat_lens : Lens
  asrB : AsrBranchRes T
  ctcB : CtcRes
  encoder_mt_out : T
  encoder_mt_out_lens : Lens
  mt : MtAttRes
  asr_ctc_weight : ℚ
  loss_st : PyNum
  loss_asr : PyNum
  loss : PyNum

/-- The loss-composition pipeline of `forward` (lines 190-271). -/
def inter (m : Model T) (speech : T) (speech_lengths : Lens)
    (text0 : Toks) (text_lengths : Lens)
    (src_text0 : Toks) (src_text_lengths : Lens) (u : ℚ) : Inter T :=
  let batch_size := m.sub.shape0 speech
  let text := sliceCols text0 (listMax text_lengths)
  let src_text := sliceCols src_text0 (listMax src_text_lengths)
  let e := m.sub.encode speech speech_lengths
  let encoder_out := e.1
  let encoder_out_lens := e.2
  let do_ctc_sample := decide (u < m.ctc_sample_rate)
  let samp := m.training && do_ctc_sample
  let yh := sampTranscript (m.ctc_arg.argmax encoder_out) src_text
  let ys_hat := yh.1
  let ys_hat_lens := yh.2
  let asrB : AsrBranchRes T :=
    if samp then
      let r := m.calcAsrAttLoss encoder_out encoder_out_lens ys_hat ys_hat_lens
      ⟨r.loss_att, none, none, none, r.hs_dec_asr, ys_hat_lens.map (fun l => l + 1)⟩
    else
      let r := m.calcAsrAttLoss encoder_out encoder_out_lens src_text src_text_lengths
      ⟨r.loss_att, some r.acc_att, r.cer_att, r.wer_att, r.hs_dec_asr,
        src_text_lengths.map (fun l => l + 1)⟩
  let ctcB :=
    if 0 < m.mtlalpha then
      m.calcCtcLoss encoder_out encoder_out_lens src_text src_text_lengths
    else ⟨PyNum.pint 0, none⟩
  let emt := m.sub.encoder_mt asrB.hs_dec_asr asrB.dec_asr_lengths
  let mt := m.calcMtAttLoss emt.1 emt.2 text text_lengths encoder_out encoder_out_lens
  let asr_ctc_weight : ℚ := if samp then 1 else m.mtlalpha
  let loss_st := mt.loss_att
  let loss_asr :=
    if asr_ctc_weight = 0 then asrB.loss_asr_att
    else ((PyNum.pfloat asr_ctc_weight).mul ctcB.loss_ctc).add
      ((PyNum.pfloat (1 - asr_ctc_weight)).mul asrB.loss_asr_att)
  let loss := ((PyNum.pfloat (1 - m.asr_weight)).mul loss_st).add
    ((PyNum.pfloat m.asr_weight).mul loss_asr)
  ⟨batch_size, text, src_text, encoder_out, encoder_out_lens, do_ctc_sample, samp,
    ys_hat, ys_hat_lens, asrB, ctcB, emt.1, emt.2, mt, asr_ctc_weight,
    loss_st, loss_asr, loss⟩

/-- The `(loss, stats, weight)` triple of a returning pass (lines 256-287,
including the `type(loss_asr) is not float` conditions of lines 275-276 —
the source's line 276 falls back to `loss_asr`, not `loss_st`, which is
preserved here verbatim). -/
def forwardPure (m : Model T) (speech : T) (speech_lengths : Lens)
    (text0 : Toks) (text_lengths : Lens)
    (src_text0 : Toks) (src_text_lengths : Lens) (u : ℚ) : FwdOut :=
  let i := m.inter speech speech_lengths text0 text_lengths src_text0 src_text_lengths u
  { loss := i.loss
    stats := [
      ("loss", StatVal.num i.loss.detach),
      ("loss_asr", StatVal.num (if i.loss_asr.isFloat = false then i.loss_asr.detach else i.loss_asr)),
      ("loss_st", StatVal.num (if i.loss_asr.isFloat = false then i.loss_st.detach else i.loss_asr)),
      ("acc_asr", StatVal.metric i.asrB.acc_asr_att),
      ("acc", StatVal.metric (some i.mt.acc_att)),
      ("cer_ctc", StatVal.metric i.ctcB.cer_ctc),
      ("cer", StatVal.metric i.asrB.cer_asr_att),
      ("wer", StatVal.metric i.asrB.wer_asr_att),
      ("bleu", StatVal.metric i.mt.bleu_att)]
    weight := i.batch_size }

/-- `ESPnetSTMDSampModel.forward` (lines 153-287).  The input assertions
are checked in source order (lines 172-188); the two `self.ctc` attribute
reads (line 202 in the sampling branch, line 235 under `mtlalpha > 0`) are
hoisted into one guard, which is sound because all submodule calls in
between are pure here and the guard fires exactly when the first such read
would raise AttributeError; the read of the `speech_out` / `speech_lens`
locals (lines 248-253) raises NameError when `speech_attn` is false, after
every other failure source.  On success the result is `forwardPure`. -/
def forward (m : Model T) (speech : T) (speech_lengths : Lens)
    (text : Toks) (text_lengths : Lens)
    (src_text? : Option Toks) (src_text_lengths? : Option Lens) (u : ℚ) :
    Except PyErr FwdOut :=
  if m.sub.shape0 speech = speech_lengths.length ∧
      speech_lengths.length = text.length ∧ text.length = text_lengths.length then
    match src_text?, src_text_lengths? with
    | none, _ => Except.error PyErr.assertionError
    | some _, none => Except.error PyErr.attributeError
    | some src_text, some src_text_lengths =>
      if text.length = src_text.length ∧ src_text.length = src_text_lengths.length then
        if (m.doSamp u = true ∨ 0 < m.mtlalpha) ∧ m.has_ctc = false then
          Except.error PyErr.attributeError
        else if m.speech_attn then
          Except.ok (m.forwardPure speech speech_lengths text text_lengths
            src_text src_text_lengths u)
        else Except.error PyErr.nameError
      else Except.error PyErr.assertionError
  else Except.error PyErr.assertionError

end Model

/-- `ESPnetSTMDSampModel.__init__` (lines 47-151).  The three numeric
assertions are checked in source order; `check_argument_types()` and the
non-None checks on `asr_decoder` / `src_token_list` hold by typing in this
embedding.  `lslCtor` is the external `LabelSmoothingLoss` constructor
(applied to `(size, padding_idx, smoothing, normalize_length)`), `mtCtor` /
`asrCtor` the external MT/ASR ErrorCalculator constructors; `training` is
the `nn.Module` train/eval flag, not a constructor argument. -/
def initModel (T : Type) (sub : Submods T)
    (lslCtor : ℤ → ℤ → ℚ → Bool → (T → Toks → ℚ))
    (mtCtor : List String → String → String → Bool → (Toks → Toks → ℚ))
    (asrCtor : List String → String → String → Bool → Bool → ASRErrCalc)
    (vocab_size : ℤ) (token_list : List String) (ctc : CTCMod T)
    (src_vocab_size : ℤ) (src_token_list : List String)
    (asr_weight mt_weight mtlalpha ctc_sample_rate : ℚ)
    (ignore_id : ℤ) (lsm_weight : ℚ) (length_normalized_loss : Bool)
    (report_cer report_wer report_bleu : Bool)
    (sym_space sym_blank : String)
    (extract_feats_in_collect_stats speech_attn training : Bool) :
    Except PyErr (Model T) :=
  if 0 < asr_weight ∧ asr_weight < 1 then
    if 0 ≤ mt_weight ∧ mt_weight < 1 then
      if 0 ≤ mtlalpha ∧ mtlalpha < 1 then
        Except.ok
          { vocab_size := vocab_size
            src_vocab_size := src_vocab_size
            sos := vocab_size - 1
            eos := vocab_size - 1
            src_sos := src_vocab_size - 1
            src_eos := src_vocab_size - 1
            ignore_id := ignore_id
            asr_weight := asr_weight
            mt_weight := mt_weight
            mtlalpha := mtlalpha
            ctc_sample_rate := ctc_sample_rate
            token_list := token_list
            src_token_list := src_token_list
            speech_attn := speech_attn
            training := training
            extract_feats_in_collect_stats := extract_feats_in_collect_stats
            sub := sub
            ctc_arg := ctc
            has_ctc := decide (0 < mtlalpha)
            criterion_st := lslCtor vocab_size ignore_id lsm_weight length_normalized_loss
            criterion_asr := lslCtor src_vocab_size ignore_id lsm_weight length_normalized_loss
            mt_error_calculator :=
              if report_bleu then
                some (mtCtor token_list sym_space sym_blank report_bleu)
              else none
            asr_error_calculator :=
              if report_cer ∨ report_wer then
                some (asrCtor src_token_list sym_space sym_blank report_cer report_wer)
              else none }
      else Except.error PyErr.assertionError
    else Except.error PyErr.assertionError
  else Except.error PyErr.assertionError

/-! ## Claim specifications -/

/-- The loss composition of claim C1, over the intermediate values `i` of a
returning pass with combined weight `w` (`asr_ctc_weight`). -/
def lossCompositionSpec (T : Type) (m : Model T) (i : Model.Inter T)
    (r : FwdOut) (w : ℚ) : Prop :=
  r.loss = PyNum.tensor ((1 - m.asr_weight) * i.loss_st.val
      + m.asr_weight * i.loss_asr.val) true ∧
  i.asr_ctc_weight = w ∧
  i.loss_asr.val = w * i.ctcB.loss_ctc.val + (1 - w) * i.asrB.loss_asr_att.val ∧
  (w = 0 → i.loss_asr = i.asrB.loss_asr_att)

/-- The stochastic intermediate-transcript switch of claim C2, over the
intermediate values `i` of a returning pass with `src_text_lengths = stl`
and uniform draw `u`. -/
def samplingSwitchSpec (T : Type) (m : Model T) (i : Model.Inter T)
    (stl : Lens) (u : ℚ) : Prop :=
  i.samp = (m.training && decide (u < m.ctc_sample_rate)) ∧
  (i.samp = true →
    i.asrB = ⟨(m.calcAsrAttLoss i.encoder_out i.encoder_out_lens i.ys_hat i.ys_hat_lens).loss_att,
      none, none, none,
      (m.calcAsrAttLoss i.encoder_out i.encoder_out_lens i.ys_hat i.ys_hat_lens).hs_dec_asr,
      i.ys_hat_lens.map (fun l => l + 1)⟩) ∧
  (i.samp = false →
    i.asrB = ⟨(m.calcAsrAttLoss i.encoder_out i.encoder_out_lens i.src_text stl).loss_att,
      some (m.calcAsrAttLoss i.encoder_out i.encoder_out_lens i.src_text stl).acc_att,
      (m.calcAsrAttLoss i.encoder_out i.encoder_out_lens i.src_text stl).cer_att,
      (m.calcAsrAttLoss i.encoder_out i.encoder_out_lens i.src_text stl).wer_att,
      (m.calcAsrAttLoss i.encoder_out i.encoder_out_lens i.src_text stl).hs_dec_asr,
      stl.map (fun l => l + 1)⟩) ∧
  i.encoder_mt_out = (m.sub.encoder_mt i.asrB.hs_dec_asr i.asrB.dec_asr_lengths).1

/-- The self-generated-transcript algorithm of claim C4, over the
intermediate values `i` of a returning pass: the rows are the collapsed,
blank-free argmax rows with the filtered `src_text` fallback for empty
rows, `ys_hat_lens` records the pre-padding lengths, `ys_hat` is the batch
right-padded with `-1`, and in the sampling branch the ASR attention loss
and the `+1` decoder lengths are computed from them. -/
def sampTranscriptSpec (T : Type) (m : Model T) (i : Model.Inter T) : Prop :=
  let raw := m.ctc_arg.argmax i.encoder_out
  let rows := sampRows raw i.src_text
  i.ys_hat = padSequence rows (-1) ∧
  i.ys_hat_lens = rows.map (fun r => r.length) ∧
  (∀ k, k < raw.length →
    rows.getD k [] = rowCore (raw.getD k []) (i.src_text.getD k [])) ∧
  (∀ k, k < raw.length →
    i.ys_hat.getD k [] = rows.getD k [] ++
      List.replicate (listMax i.ys_hat_lens - (rows.getD k []).length) (-1)) ∧
  (∀ k, k < raw.length → i.ys_hat_lens.getD k 0 = (rows.getD k []).length) ∧
  i.asrB.loss_asr_att
    = (m.calcAsrAttLoss i.encoder_out i.encoder_out_lens i.ys_hat i.ys_hat_lens).loss_att ∧
  i.asrB.dec_asr_lengths = i.ys_hat_lens.map (fun l => l + 1)

/-- The two-decoder routing of claim C5, over the intermediate values `i`
of a returning pass: the ASR decoder consumes the speech encoder output
(with sos/eos-augmented transcripts of length `ys_pad_lens + 1`), the
MT encoder consumes the ASR decoder's hidden states, and the ST decoder's
memory is the MT encoder output (not `encoder_out`), which the combined
loss depends on through `loss_st`. -/
def routingSpec (T : Type) (m : Model T) (i : Model.Inter T) (txl : Lens)
    (stl : Lens) (r : FwdOut) : Prop :=
  (∀ e el ys yl, (m.calcAsrAttLoss e el ys yl).hs_dec_asr
      = (m.sub.asr_decoder e el
          (m.sub.add_sos_eos ys m.src_sos m.src_eos m.ignore_id).1
          (yl.map (fun l => l + 1))).2) ∧
  (i.samp = true → i.asrB.hs_dec_asr
      = (m.calcAsrAttLoss i.encoder_out i.encoder_out_lens i.ys_hat i.ys_hat_lens).hs_dec_asr) ∧
  (i.samp = false → i.asrB.hs_dec_asr
      = (m.calcAsrAttLoss i.encoder_out i.encoder_out_lens i.src_text stl).hs_dec_asr) ∧
  i.encoder_mt_out = (m.sub.encoder_mt i.asrB.hs_dec_asr i.asrB.dec_asr_lengths).1 ∧
  i.encoder_mt_out_lens = (m.sub.encoder_mt i.asrB.hs_dec_asr i.asrB.dec_asr_lengths).2 ∧
  i.loss_st = (m.calcMtAttLoss i.encoder_mt_out i.encoder_mt_out_lens i.text txl
      i.encoder_out i.encoder_out_lens).loss_att ∧
  (m.speech_attn = true →
    (m.calcMtAttLoss i.encoder_mt_out i.encoder_mt_out_lens i.text txl
        i.encoder_out i.encoder_out_lens).loss_att
      = PyNum.tensor (m.criterion_st
          (m.sub.decoder i.encoder_mt_out i.encoder_mt_out_lens
            (m.sub.add_sos_eos i.text m.sos m.eos m.ignore_id).1
            (txl.map (fun l => l + 1))
            (some i.encoder_out) (some i.encoder_out_lens))
          (m.sub.add_sos_eos i.text m.sos m.eos m.ignore_id).2) true) ∧
  r.loss.val = (1 - m.asr_weight) * i.loss_st.val + m.asr_weight * i.loss_asr.val

/-- The skipped-CTC behaviour of claim C6 when `mtlalpha = 0`, over the
intermediate values `i` of a returning pass: `loss_asr_ctc` is the Python
int constant 0, `cer_asr_ctc` is `None` (also in the reported stats), and
`loss_asr` is exactly the attention loss. -/
def ctcSkippedSpec (T : Type) (m : Model T) (i : Model.Inter T) (r : FwdOut) : Prop :=
  i.ctcB = ⟨PyNum.pint 0, none⟩ ∧
  i.loss_asr = i.asrB.loss_asr_att ∧
  r.stats.lookup "cer_ctc" = some (StatVal.metric none)

/-- The applied-CTC behaviour of claim C6 when `mtlalpha > 0`, over the
intermediate values `i` of a returning pass: the CTC branch is evaluated on
`(encoder_out, src_text)` through the `ctc` object handed to the
constructor. -/
def ctcAppliedSpec (T : Type) (m : Model T) (i : Model.Inter T) (stl : Lens)
    (ctc : CTCMod T) : Prop :=
  i.ctcB = m.calcCtcLoss i.encoder_out i.encoder_out_lens i.src_text stl ∧
  i.ctcB.loss_ctc
    = PyNum.tensor (ctc.closs i.encoder_out i.encoder_out_lens i.src_text stl) true

/-- The output-triple property of claim C7, over the intermediate values
`i` of a returning pass with input `sp`: the weight is the batch size, the
loss is the combined objective, and the stats dictionary holds exactly the
detached `loss` / `loss_asr` / `loss_st` followed by the metrics
`acc_asr`, `acc`, `cer_ctc`, `cer`, `wer`, `bleu`. -/
def outputTripleSpec (T : Type) (m : Model T) (i : Model.Inter T) (r : FwdOut)
    (sp : T) : Prop :=
  r.weight = m.sub.shape0 sp ∧
  r.loss = i.loss ∧
  r.stats = [("loss", StatVal.num i.loss.detach),
    ("loss_asr", StatVal.num i.loss_asr.detach),
    ("loss_st", StatVal.num i.loss_st.detach),
    ("acc_asr", StatVal.metric i.asrB.acc_asr_att),
    ("acc", StatVal.metric (some i.mt.acc_att)),
    ("cer_ctc", StatVal.metric i.ctcB.cer_ctc),
    ("cer", StatVal.metric i.asrB.cer_asr_att),
    ("wer", StatVal.metric i.asrB.wer_asr_att),
    ("bleu", StatVal.metric i.mt.bleu_att)] ∧
  r.stats.map Prod.fst
    = ["loss", "loss_asr", "loss_st", "acc_asr", "acc", "cer_ctc", "cer", "wer", "bleu"] ∧
  i.loss.detach.gradOf = false ∧ i.loss_asr.detach.gradOf = false ∧
  i.loss_st.detach.gradOf = false

/-! ## Concrete instances used by the witnesses -/

def wSub : Submods Unit :=
  { shape0 := fun _ => 1
    encode := fun t l => (t, l)
    encoder_mt := fun t l => (t, l)
    asr_decoder := fun t _ _ _ => (t, t)
    decoder := fun t _ _ _ _ _ => t
    tArgmax := fun _ => [[1]]
    add_sos_eos := fun ys s e _ =>
      (ys.map (fun row => s :: row), ys.map (fun row => row ++ [e]))
    th_accuracy := fun _ _ _ _ => 1 }

def wCtc : CTCMod Unit :=
  { argmax := fun _ => [[1, 1, 0, 2]], closs := fun _ _ _ _ => 3 }

def wLsl : ℤ → ℤ → ℚ → Bool → (Unit → Toks → ℚ) := fun _ _ _ _ => fun _ _ => 1

def wMtC : List String → String → String → Bool → (Toks → Toks → ℚ) :=
  fun _ _ _ _ => fun _ _ => 0

def wAsrC : List String → String → String → Bool → Bool → ASRErrCalc :=
  fun _ _ _ _ _ => ⟨fun _ _ => (0, 0), fun _ _ => 0⟩

/-- A concrete evaluation-mode model (teacher-forced branch). -/
def mTeach : Model Unit :=
  { vocab_size := 5, src_vocab_size := 4, sos := 4, eos := 4, src_sos := 3,
    src_eos := 3, ignore_id := -1, asr_weight := mkRat 1 2, mt_weight := 0,
    mtlalpha := mkRat 1 2, ctc_sample_rate := 0, token_list := [],
    src_token_list := [], speech_attn := true, training := false,
    extract_feats_in_collect_stats := true, sub := wSub, ctc_arg := wCtc,
    has_ctc := true, criterion_st := fun _ _ => 2, criterion_asr := fun _ _ => 1,
    mt_error_calculator := none, asr_error_calculator := none }

/-- A concrete training-mode model whose sampling branch always fires. -/
def mSamp : Model Unit := { mTeach with training := true, ctc_sample_rate := 1 }

/-- `mTeach` with the constructor-default `speech_attn := false`. -/
def mNoAttn : Model Unit := { mTeach with speech_attn := false }

/-- The model produced by `initModel` at the concrete arguments of
`C6_ctc_branch_witness`. -/
def mInit6 : Model Unit :=
  { vocab_size := 5, src_vocab_size := 4, sos := 4, eos := 4, src_sos := 3,
    src_eos := 3, ignore_id := -1, asr_weight := mkRat 1 2, mt_weight := 0,
    mtlalpha := mkRat 1 2, ctc_sample_rate := 0, token_list := [],
    src_token_list := [], speech_attn := true, training := false,
    extract_feats_in_collect_stats := true, sub := wSub, ctc_arg := wCtc,
    has_ctc := true, criterion_st := wLsl 5 (-1) 0 false,
    criterion_asr := wLsl 4 (-1) 0 false,
    mt_error_calculator := none,
    asr_error_calculator := some (wAsrC [] "" "" true true) }

/-! ## Theorems -/

namespace PyNum

theorem val_mul (a b : PyNum) : (a.mul b).val = a.val * b.val := by
  cases a <;> cases b <;> simp [mul, val, isTensor, gradOf]

theorem val_add (a b : PyNum) : (a.add b).val = a.val + b.val := by
  cases a <;> cases b <;> simp [add, val, isTensor, gradOf]

theorem gradOf_detach (x : PyNum) : (detach x).gradOf = false := by
  cases x <;> rfl

theorem val_detach (x : PyNum) : (detach x).val = x.val := by
  cases x <;> rfl

end PyNum

/-! ## Helper lemmas -/

namespace PyNum

theorem mix_tensor (a b v : ℚ) (x : PyNum) :
    ((PyNum.pfloat a).mul x).add ((PyNum.pfloat b).mul (PyNum.tensor v true))
      = PyNum.tensor (a * x.val + b * v) true := by
  cases x <;> simp [mul, add, isTensor, gradOf, val]

theorem two_tensor_mix (a b s r : ℚ) :
    ((PyNum.pfloat a).mul (PyNum.tensor s true)).add
      ((PyNum.pfloat b).mul (PyNum.tensor r true))
      = PyNum.tensor (a * s + b * r) true := by
  simp [mul, add, isTensor, gradOf, val]

end PyNum

namespace Model

variable {T : Type}

theorem inter_batch_size (m : Model T) (sp : T) (spl : Lens) (tx : Toks)
    (txl : Lens) (st : Toks) (stl : Lens) (u : ℚ) :
    (m.inter sp spl tx txl st stl u).batch_size = m.sub.shape0 sp := rfl

theorem inter_text (m : Model T) (sp : T) (spl : Lens) (tx : Toks)
    (txl : Lens) (st : Toks) (stl : Lens) (u : ℚ) :
    (m.inter sp spl tx txl st stl u).text = sliceCols tx (listMax txl) := rfl

theorem inter_src_text (m : Model T) (sp : T) (spl : Lens) (tx : Toks)
    (txl : Lens) (st : Toks) (stl : Lens) (u : ℚ) :
    (m.inter sp spl tx txl st stl u).src_text = sliceCols st (listMax stl) := rfl

theorem inter_encoder_out (m : Model T) (sp : T) (spl : Lens) (tx : Toks)
    (txl : Lens) (st : Toks) (stl : Lens) (u : ℚ) :
    (m.inter sp spl tx txl st stl u).encoder_out = (m.sub.encode sp spl).1 := rfl

theorem inter_encoder_out_lens (m : Model T) (sp : T) (spl : Lens) (tx : Toks)
    (txl : Lens) (st : Toks) (stl : Lens) (u : ℚ) :
    (m.inter sp spl tx txl st stl u).encoder_out_lens = (m.sub.encode sp spl).2 := rfl

theorem inter_samp (m : Model T) (sp : T) (spl : Lens) (tx : Toks)
    (txl : Lens) (st : Toks) (stl : Lens) (u : ℚ) :
    (m.inter sp spl tx txl st stl u).samp = m.doSamp u := rfl

theorem inter_ys_hat (m : Model T) (sp : T) (spl : Lens) (tx : Toks)
    (txl : Lens) (st : Toks) (stl : Lens) (u : ℚ) :
    (m.inter sp spl tx txl st stl u).ys_hat
      = (sampTranscript (m.ctc_arg.argmax (m.inter sp spl tx txl st stl u).encoder_out)
          (m.inter sp spl tx txl st stl u).src_text).1 := rfl

theorem inter_ys_hat_lens (m : Model T) (sp : T) (spl : Lens) (tx : Toks)
    (txl : Lens) (st : Toks) (stl : Lens) (u : ℚ) :
    (m.inter sp spl tx txl st stl u).ys_hat_lens
      = (sampTranscript (m.ctc_arg.argmax (m.inter sp spl tx txl st stl u).encoder_out)
          (m.inter sp spl tx txl st stl u).src_text).2 := rfl

theorem inter_asrB_eq (m : Model T) (sp : T) (spl : Lens) (tx : Toks)
    (txl : Lens) (st : Toks) (stl : Lens) (u : ℚ) :
    (m.inter sp spl tx txl st stl u).asrB =
      (if m.doSamp u = true then
        let r := m.calcAsrAttLoss (m.inter sp spl tx txl st stl u).encoder_out
          (m.inter sp spl tx txl st stl u).encoder_out_lens
          (m.inter sp spl tx txl st stl u).ys_hat
          (m.inter sp spl tx txl st stl u).ys_hat_lens
        (⟨r.loss_att, none, none, none, r.hs_dec_asr,
          (m.inter sp spl tx txl st stl u).ys_hat_lens.map (fun l => l + 1)⟩ : AsrBranchRes T)
      else
        let r := m.calcAsrAttLoss (m.inter sp spl tx txl st stl u).encoder_out
          (m.inter sp spl tx txl st stl u).encoder_out_lens
          (m.inter sp spl tx txl st stl u).src_text stl
        (⟨r.loss_att, some r.acc_att, r.cer_att, r.wer_att, r.hs_dec_asr,
          stl.map (fun l => l + 1)⟩ : AsrBranchRes T)) := rfl

theorem inter_ctcB_eq (m : Model T) (sp : T) (spl : Lens) (tx : Toks)
    (txl : Lens) (st : Toks) (stl : Lens) (u : ℚ) :
    (m.inter sp spl tx txl st stl u).ctcB =
      (if 0 < m.mtlalpha then
        m.calcCtcLoss (m.inter sp spl tx txl st stl u).encoder_out
          (m.inter sp spl tx txl st stl u).encoder_out_lens
          (m.inter sp spl tx txl st stl u).src_text stl
      else ⟨PyNum.pint 0, none⟩) := rfl

theorem inter_encoder_mt_out (m : Model T) (sp : T) (spl : Lens) (tx : Toks)
    (txl : Lens) (st : Toks) (stl : Lens) (u : ℚ) :
    (m.inter sp spl tx txl st stl u).encoder_mt_out
      = (m.sub.encoder_mt (m.inter sp spl tx txl st stl u).asrB.hs_dec_asr
          (m.inter sp spl tx txl st stl u).asrB.dec_asr_lengths).1 := rfl

theorem inter_encoder_mt_out_lens (m : Model T) (sp : T) (spl : Lens) (tx : Toks)
    (txl : Lens) (st : Toks) (stl : Lens) (u : ℚ) :
    (m.inter sp spl tx txl st stl u).encoder_mt_out_lens
      = (m.sub.encoder_mt (m.inter sp spl tx txl st stl u).asrB.hs_dec_asr
          (m.inter sp spl tx txl st stl u).asrB.dec_asr_lengths).2 := rfl

theorem inter_mt_eq (m : Model T) (sp : T) (spl : Lens) (tx : Toks)
    (txl : Lens) (st : Toks) (stl : Lens) (u : ℚ) :
    (m.inter sp spl tx txl st stl u).mt
      = m.calcMtAttLoss (m.inter sp spl tx txl st stl u).encoder_mt_out
          (m.inter sp spl tx txl st stl u).encoder_mt_out_lens
          (m.inter sp spl tx txl st stl u).text txl
          (m.inter sp spl tx txl st stl u).encoder_out
          (m.inter sp spl tx txl st stl u).encoder_out_lens := rfl

theorem inter_asr_ctc_weight (m : Model T) (sp : T) (spl : Lens) (tx : Toks)
    (txl : Lens) (st : Toks) (stl : Lens) (u : ℚ) :
    (m.inter sp spl tx txl st stl u).asr_ctc_weight
      = (if m.doSamp u = true then (1 : ℚ) else m.mtlalpha) := rfl

theorem inter_loss_st_eq (m : Model T) (sp : T) (spl : Lens) (tx : Toks)
    (txl : Lens) (st : Toks) (stl : Lens) (u : ℚ) :
    (m.inter sp spl tx txl st stl u).loss_st
      = (m.inter sp spl tx txl st stl u).mt.loss_att := rfl

theorem inter_loss_asr_eq (m : Model T) (sp : T) (spl : Lens) (tx : Toks)
    (txl : Lens) (st : Toks) (stl : Lens) (u : ℚ) :
    (m.inter sp spl tx txl st stl u).loss_asr =
      (if (m.inter sp spl tx txl st stl u).asr_ctc_weight = 0 then
        (m.inter sp spl tx txl st stl u).asrB.loss_asr_att
      else
        ((PyNum.pfloat (m.inter sp spl tx txl st stl u).asr_ctc_weight).mul
            (m.inter sp spl tx txl st stl u).ctcB.loss_ctc).add
          ((PyNum.pfloat (1 - (m.inter sp spl tx txl st stl u).asr_ctc_weight)).mul
            (m.inter sp spl tx txl st stl u).asrB.loss_asr_att)) := rfl

theorem inter_loss_eq (m : Model T) (sp : T) (spl : Lens) (tx : Toks)
    (txl : Lens) (st : Toks) (stl : Lens) (u : ℚ) :
    (m.inter sp spl tx txl st stl u).loss =
      ((PyNum.pfloat (1 - m.asr_weight)).mul (m.inter sp spl tx txl st stl u).loss_st).add
        ((PyNum.pfloat m.asr_weight).mul (m.inter sp spl tx txl st stl u).loss_asr) := rfl

theorem calcAsrAttLoss_loss_att (m : Model T) (e : T) (el : Lens)
    (ys : Toks) (yl : Lens) :
    ∃ v, (m.calcAsrAttLoss e el ys yl).loss_att = PyNum.tensor v true := ⟨_, rfl⟩

theorem calcMtAttLoss_loss_att (m : Model T) (e : T) (el : Lens)
    (ys : Toks) (yl : Lens) (s : T) (sl : Lens) :
    ∃ v, (m.calcMtAttLoss e el ys yl s sl).loss_att = PyNum.tensor v true := ⟨_, rfl⟩

theorem calcCtcLoss_loss_ctc (m : Model T) (e : T) (el : Lens)
    (ys : Toks) (yl : Lens) :
    ∃ v, (m.calcCtcLoss e el ys yl).loss_ctc = PyNum.tensor v true := ⟨_, rfl⟩

theorem inter_asrB_loss_att_tensor (m : Model T) (sp : T) (spl : Lens) (tx : Toks)
    (txl : Lens) (st : Toks) (stl : Lens) (u : ℚ) :
    ∃ v, (m.inter sp spl tx txl st stl u).asrB.loss_asr_att = PyNum.tensor v true := by
  rw [inter_asrB_eq]
  split
  · exact ⟨_, rfl⟩
  · exact ⟨_, rfl⟩

theorem inter_loss_asr_tensor (m : Model T) (sp : T) (spl : Lens) (tx : Toks)
    (txl : Lens) (st : Toks) (stl : Lens) (u : ℚ) :
    (m.inter sp spl tx txl st stl u).loss_asr
      = PyNum.tensor ((m.inter sp spl tx txl st stl u).loss_asr.val) true := by
  obtain ⟨v, hv⟩ := inter_asrB_loss_att_tensor m sp spl tx txl st stl u
  rw [inter_loss_asr_eq, hv]
  split
  · rfl
  · rw [PyNum.mix_tensor]
    rfl

theorem inter_loss_st_tensor (m : Model T) (sp : T) (spl : Lens) (tx : Toks)
    (txl : Lens) (st : Toks) (stl : Lens) (u : ℚ) :
    (m.inter sp spl tx txl st stl u).loss_st
      = PyNum.tensor ((m.inter sp spl tx txl st stl u).loss_st.val) true := by
  obtain ⟨v, hv⟩ := calcMtAttLoss_loss_att m
    (m.inter sp spl tx txl st stl u).encoder_mt_out
    (m.inter sp spl tx txl st stl u).encoder_mt_out_lens
    (m.inter sp spl tx txl st stl u).text txl
    (m.inter sp spl tx txl st stl u).encoder_out
    (m.inter sp spl tx txl st stl u).encoder_out_lens
  rw [inter_loss_st_eq, inter_mt_eq, hv]
  rfl

theorem inter_loss_tensor (m : Model T) (sp : T) (spl : Lens) (tx : Toks)
    (txl : Lens) (st : Toks) (stl : Lens) (u : ℚ) :
    (m.inter sp spl tx txl st stl u).loss
      = PyNum.tensor ((1 - m.asr_weight) * (m.inter sp spl tx txl st stl u).loss_st.val
          + m.asr_weight * (m.inter sp spl tx txl st stl u).loss_asr.val) true := by
  rw [inter_loss_eq, inter_loss_st_tensor, inter_loss_asr_tensor,
    PyNum.two_tensor_mix]
  rfl

theorem forward_ok_cases (m : Model T) (sp : T) (spl : Lens) (tx : Toks)
    (txl : Lens) (st? : Option Toks) (stl? : Option Lens) (u : ℚ) (r : FwdOut)
    (h : m.forward sp spl tx txl st? stl? u = Except.ok r) :
    ∃ st stl, st? = some st ∧ stl? = some stl ∧
      m.speech_attn = true ∧
      ((m.doSamp u = true ∨ 0 < m.mtlalpha) → m.has_ctc = true) ∧
      r = m.forwardPure sp spl tx txl st stl u := by
  unfold forward at h
  split at h
  · split at h
    · exact absurd h (by simp)
    · exact absurd h (by simp)
    · rename_i st stl
      split at h
      · split at h
        · exact absurd h (by simp)
        · rename_i hctc
          split at h
          · rename_i hattn
            refine ⟨st, stl, rfl, rfl, hattn, ?_, (Except.ok.inj h).symm⟩
            intro hd
            by_contra hc
            exact hctc ⟨hd, by simpa using hc⟩
          · exact absurd h (by simp)
      · exact absurd h (by simp)
  · exact absurd h (by simp)

end Model

theorem initModel_ok_cases (T : Type) (sub : Submods T)
    (lslCtor : ℤ → ℤ → ℚ → Bool → (T → Toks → ℚ))
    (mtCtor : List String → String → String → Bool → (Toks → Toks → ℚ))
    (asrCtor : List String → String → String → Bool → Bool → ASRErrCalc)
    (vocab_size : ℤ) (token_list : List String) (ctc : CTCMod T)
    (src_vocab_size : ℤ) (src_token_list : List String)
    (asr_weight mt_weight mtlalpha ctc_sample_rate : ℚ)
    (ignore_id : ℤ) (lsm_weight : ℚ) (length_normalized_loss : Bool)
    (report_cer report_wer report_bleu : Bool)
    (sym_space sym_blank : String)
    (extract_feats_in_collect_stats speech_attn training : Bool)
    (m : Model T)
    (h : initModel T sub lslCtor mtCtor asrCtor vocab_size token_list ctc
      src_vocab_size src_token_list asr_weight mt_weight mtlalpha
      ctc_sample_rate ignore_id lsm_weight length_normalized_loss
      report_cer report_wer report_bleu sym_space sym_blank
      extract_feats_in_collect_stats speech_attn training = Except.ok m) :
    (0 < asr_weight ∧ asr_weight < 1) ∧ (0 ≤ mt_weight ∧ mt_weight < 1) ∧
      (0 ≤ mtlalpha ∧ mtlalpha < 1) ∧
      m.mtlalpha = mtlalpha ∧ m.has_ctc = decide (0 < mtlalpha) ∧
      m.ctc_arg = ctc ∧ m.asr_weight = asr_weight ∧
      m.speech_attn = speech_attn ∧ m.training = training ∧
      m.ctc_sample_rate = ctc_sample_rate ∧ m.mt_weight = mt_weight := by
  unfold initModel at h
  split at h
  · split at h
    · split at h
      · rename_i h1 h2 h3
        obtain rfl := (Except.ok.inj h).symm
        exact ⟨h1, h2, h3, rfl, rfl, rfl, rfl, rfl, rfl, rfl, rfl⟩
      · exact absurd h (by simp)
    · exact absurd h (by simp)
  · exact absurd h (by simp)

theorem sampRows_length (raw src : Toks) : (sampRows raw src).length = raw.length := by
  simp [sampRows]

theorem sampRows_getD (raw src : Toks) (k : ℕ) (hk : k < raw.length) :
    (sampRows raw src).getD k [] = rowCore (raw.getD k []) (src.getD k []) := by
  unfold sampRows rowCore
  have hk' : k < (raw.map (fun ys => (collapseGroups ys).filter (fun t => t ≠ 0))).length := by
    simpa using hk
  simp [List.getD_eq_getElem?_getD, List.getElem?_map, List.getElem?_range, hk,
    List.getElem?_eq_getElem hk, List.getElem?_eq_getElem hk']

theorem padSequence_getD (rows : Toks) (p : ℤ) (k : ℕ) (hk : k < rows.length) :
    (padSequence rows p).getD k [] =
      rows.getD k [] ++ List.replicate
        (listMax (rows.map (fun r => r.length)) - (rows.getD k []).length) p := by
  unfold padSequence
  simp [List.getD_eq_getElem?_getD, List.getElem?_map, List.getElem?_eq_getElem hk]

theorem mapLen_getD (rows : Toks) (k : ℕ) (hk : k < rows.length) :
    (rows.map (fun r => r.length)).getD k 0 = (rows.getD k []).length := by
  simp [List.getD_eq_getElem?_getD, List.getElem?_map, List.getElem?_eq_getElem hk]

namespace Model

variable {T : Type}

theorem forwardPure_loss (m : Model T) (sp : T) (spl : Lens) (tx : Toks)
    (txl : Lens) (st : Toks) (stl : Lens) (u : ℚ) :
    (m.forwardPure sp spl tx txl st stl u).loss
      = (m.inter sp spl tx txl st stl u).loss := rfl

theorem forwardPure_weight (m : Model T) (sp : T) (spl : Lens) (tx : Toks)
    (txl : Lens) (st : Toks) (stl : Lens) (u : ℚ) :
    (m.forwardPure sp spl tx txl st stl u).weight
      = (m.inter sp spl tx txl st stl u).batch_size := rfl

theorem forwardPure_stats_cer_ctc (m : Model T) (sp : T) (spl : Lens) (tx : Toks)
    (txl : Lens) (st : Toks) (stl : Lens) (u : ℚ) :
    ((m.forwardPure sp spl tx txl st stl u).stats).lookup "cer_ctc"
      = some (StatVal.metric (m.inter sp spl tx txl st stl u).ctcB.cer_ctc) := rfl

end Model

/-! ## Claims -/

/-- Claim C1: for every forward pass of `ESPnetSTMDSampModel` that returns,
the returned training objective is the single scalar
`loss = (1 - asr_weight) * loss_st + asr_weight * loss_asr`, where
`loss_st` is the ST attention loss and
`loss_asr = w * loss_asr_ctc + (1 - w) * loss_asr_att`, with `w = 1.0` when
the stochastic CTC-sampling branch was taken in training mode and
`w = mtlalpha` otherwise, and with `loss_asr = loss_asr_att` exactly when
`w = 0.0`. -/
theorem C1_loss_composition (T : Type) (m : Model T) (sp : T) (spl : Lens)
    (tx : Toks) (txl : Lens) (st? : Option Toks) (stl? : Option Lens) (u : ℚ)
    (r : FwdOut) (h : m.forward sp spl tx txl st? stl? u = Except.ok r) :
    ∃ st stl, st? = some st ∧ stl? = some stl ∧
      lossCompositionSpec T m (m.inter sp spl tx txl st stl u) r
        (if m.doSamp u = true then 1 else m.mtlalpha) := by
  obtain ⟨st, stl, hst, hstl, _, _, hr⟩ :=
    Model.forward_ok_cases m sp spl tx txl st? stl? u r h
  subst hr
  refine ⟨st, stl, hst, hstl, ?_, ?_, ?_, ?_⟩
  · rw [Model.forwardPure_loss, Model.inter_loss_tensor]
  · rw [Model.inter_asr_ctc_weight]
  · rw [Model.inter_loss_asr_eq, Model.inter_asr_ctc_weight]
    by_cases hw : (if m.doSamp u = true then (1 : ℚ) else m.mtlalpha) = 0
    · rw [if_pos hw, hw]
      ring
    · rw [if_neg hw, PyNum.val_add, PyNum.val_mul, PyNum.val_mul]
      simp only [PyNum.val]
  · intro h0
    rw [Model.inter_loss_asr_eq, Model.inter_asr_ctc_weight, if_pos h0]

/-- Claim C2: in training mode a single uniform draw `u` switches the
intermediate transcript: if `u < ctc_sample_rate` the ASR attention loss
and the MT-encoder input lengths are computed from the self-generated CTC
transcript `ys_hat` (with `ys_hat_lens + 1` as lengths and `acc_asr`,
`cer`, `wer` reported as `None`); otherwise — and always when not in
training mode — from the teacher-forced `src_text` with lengths
`src_text_lengths + 1`. -/
theorem C2_sampling_switch (T : Type) (m : Model T) (sp : T) (spl : Lens)
    (tx : Toks) (txl : Lens) (st? : Option Toks) (stl? : Option Lens) (u : ℚ)
    (r : FwdOut) (h : m.forward sp spl tx txl st? stl? u = Except.ok r) :
    ∃ st stl, st? = some st ∧ stl? = some stl ∧
      samplingSwitchSpec T m (m.inter sp spl tx txl st stl u) stl u := by
  obtain ⟨st, stl, hst, hstl, _, _, hr⟩ :=
    Model.forward_ok_cases m sp spl tx txl st? stl? u r h
  refine ⟨st, stl, hst, hstl, rfl, ?_, ?_, Model.inter_encoder_mt_out m sp spl tx txl st stl u⟩
  · intro hs
    rw [Model.inter_samp] at hs
    rw [Model.inter_asrB_eq, if_pos hs]
  · intro hs
    rw [Model.inter_samp] at hs
    rw [Model.inter_asrB_eq, if_neg (by simp [hs])]

/-- Claim C3: `forward` completes only when `speech_attn` is true; with
`speech_attn = false` (the constructor default) no pass returns a loss, and
once the input assertions pass and no missing-`self.ctc` AttributeError
fires first, the unconditional ST-attention call raises NameError from the
unbound `speech_out` / `speech_lens` locals. -/
theorem C3_requires_speech_attn (T : Type) (m : Model T) (sp : T) (spl : Lens)
    (tx : Toks) (txl : Lens) (st? : Option Toks) (stl? : Option Lens) (u : ℚ)
    (hattn : m.speech_attn = false) :
    (∀ r, m.forward sp spl tx txl st? stl? u ≠ Except.ok r) ∧
    (∀ st stl, st? = some st → stl? = some stl →
      (m.sub.shape0 sp = spl.length ∧ spl.length = tx.length ∧
        tx.length = txl.length) →
      (tx.length = st.length ∧ st.length = stl.length) →
      ¬ ((m.doSamp u = true ∨ 0 < m.mtlalpha) ∧ m.has_ctc = false) →
      m.forward sp spl tx txl st? stl? u = Except.error PyErr.nameError) := by
  constructor
  · intro r h
    obtain ⟨st, stl, _, _, hattn', _, _⟩ :=
      Model.forward_ok_cases m sp spl tx txl st? stl? u r h
    rw [hattn] at hattn'
    exact Bool.noConfusion hattn'
  · rintro st stl rfl rfl h1 h2 h3
    unfold Model.forward
    rw [if_pos h1]
    show (if tx.length = st.length ∧ st.length = stl.length then _ else _) = _
    rw [if_pos h2, if_neg h3, if_neg (by simp [hattn])]

/-- Claim C4: when the stochastic sampling branch is taken, the
self-generated intermediate transcript is produced exactly by: greedy CTC
argmax over the encoder output, collapse of consecutive duplicates, removal
of blank tokens (id 0), substitution of the row's `src_text` tokens with
`-1` entries removed whenever the result is empty, recording of each
pre-padding length in `ys_hat_lens`, and right-padding with `-1`. -/
theorem C4_sampling_transcript (T : Type) (m : Model T) (sp : T) (spl : Lens)
    (tx : Toks) (txl : Lens) (st? : Option Toks) (stl? : Option Lens) (u : ℚ)
    (r : FwdOut) (h : m.forward sp spl tx txl st? stl? u = Except.ok r)
    (hs : m.doSamp u = true) :
    ∃ st stl, st? = some st ∧ stl? = some stl ∧
      sampTranscriptSpec T m (m.inter sp spl tx txl st stl u) := by
  obtain ⟨st, stl, hst, hstl, _, _, hr⟩ :=
    Model.forward_ok_cases m sp spl tx txl st? stl? u r h
  refine ⟨st, stl, hst, hstl, rfl, rfl, ?_, ?_, ?_, ?_, ?_⟩
  · intro k hk
    exact sampRows_getD _ _ k hk
  · intro k hk
    have hk' : k < (sampRows (m.ctc_arg.argmax (m.inter sp spl tx txl st stl u).encoder_out)
        (m.inter sp spl tx txl st stl u).src_text).length := by
      rw [sampRows_length]
      exact hk
    exact padSequence_getD _ _ k hk'
  · intro k hk
    have hk' : k < (sampRows (m.ctc_arg.argmax (m.inter sp spl tx txl st stl u).encoder_out)
        (m.inter sp spl tx txl st stl u).src_text).length := by
      rw [sampRows_length]
      exact hk
    exact mapLen_getD _ k hk'
  · rw [Model.inter_asrB_eq, if_pos hs]
  · rw [Model.inter_asrB_eq, if_pos hs]

/-- Claim C5: encoder outputs are routed through two decoders in sequence:
the ASR decoder attends directly to the speech encoder output
`encoder_out` (with sos/eos-augmented transcripts of length
`ys_pad_lens + 1`), while the ST decoder's encoder memory is not
`encoder_out` but the output of `encoder_mt` applied to the ASR decoder's
hidden states `hs_dec_asr`, so the ST loss is computed on representations
derived from the ASR branch. -/
theorem C5_two_decoder_routing (T : Type) (m : Model T) (sp : T) (spl : Lens)
    (tx : Toks) (txl : Lens) (st? : Option Toks) (stl? : Option Lens) (u : ℚ)
    (r : FwdOut) (h : m.forward sp spl tx txl st? stl? u = Except.ok r) :
    ∃ st stl, st? = some st ∧ stl? = some stl ∧
      routingSpec T m (m.inter sp spl tx txl st stl u) txl stl r := by
  obtain ⟨st, stl, hst, hstl, _, _, hr⟩ :=
    Model.forward_ok_cases m sp spl tx txl st? stl? u r h
  subst hr
  refine ⟨st, stl, hst, hstl, fun e el ys yl => rfl, ?_, ?_,
    Model.inter_encoder_mt_out m sp spl tx txl st stl u,
    Model.inter_encoder_mt_out_lens m sp spl tx txl st stl u, ?_, ?_, ?_⟩
  · intro hsamp
    rw [Model.inter_samp] at hsamp
    rw [Model.inter_asrB_eq, if_pos hsamp]
  · intro hsamp
    rw [Model.inter_samp] at hsamp
    rw [Model.inter_asrB_eq, if_neg (by simp [hsamp])]
  · rw [Model.inter_loss_st_eq, Model.inter_mt_eq]
  · intro hattn
    simp [Model.calcMtAttLoss, hattn]
  · rw [Model.forwardPure_loss, Model.inter_loss_tensor]
    rfl

/-- Claim C6: the auxiliary CTC alignment loss is computed on
`(encoder_out, src_text)` if and only if `mtlalpha > 0`: when
`mtlalpha = 0` the CTC branch is skipped, `loss_asr_ctc` is the constant 0,
`cer_asr_ctc` is `None`, and the constructed model stores no `ctc`
attribute at all. -/
theorem C6_ctc_branch (T : Type) (sub : Submods T)
    (lslCtor : ℤ → ℤ → ℚ → Bool → (T → Toks → ℚ))
    (mtCtor : List String → String → String → Bool → (Toks → Toks → ℚ))
    (asrCtor : List String → String → String → Bool → Bool → ASRErrCalc)
    (vocab_size : ℤ) (token_list : List String) (ctc : CTCMod T)
    (src_vocab_size : ℤ) (src_token_list : List String)
    (asr_weight mt_weight mtlalpha ctc_sample_rate : ℚ)
    (ignore_id : ℤ) (lsm_weight : ℚ) (length_normalized_loss : Bool)
    (report_cer report_wer report_bleu : Bool)
    (sym_space sym_blank : String)
    (extract_feats_in_collect_stats speech_attn training : Bool)
    (m : Model T)
    (hinit : initModel T sub lslCtor mtCtor asrCtor vocab_size token_list ctc
      src_vocab_size src_token_list asr_weight mt_weight mtlalpha
      ctc_sample_rate ignore_id lsm_weight length_normalized_loss
      report_cer report_wer report_bleu sym_space sym_blank
      extract_feats_in_collect_stats speech_attn training = Except.ok m) :
    (m.has_ctc = true ↔ 0 < mtlalpha) ∧
    (mtlalpha = 0 → m.has_ctc = false ∧
      ∀ (sp : T) (spl : Lens) (tx : Toks) (txl : Lens) (st? : Option Toks)
        (stl? : Option Lens) (u : ℚ) (r : FwdOut),
        m.forward sp spl tx txl st? stl? u = Except.ok r →
        ∃ st stl, st? = some st ∧ stl? = some stl ∧
          ctcSkippedSpec T m (m.inter sp spl tx txl st stl u) r) ∧
    (0 < mtlalpha →
      ∀ (sp : T) (spl : Lens) (tx : Toks) (txl : Lens) (st? : Option Toks)
        (stl? : Option Lens) (u : ℚ) (r : FwdOut),
        m.forward sp spl tx txl st? stl? u = Except.ok r →
        ∃ st stl, st? = some st ∧ stl? = some stl ∧
          ctcAppliedSpec T m (m.inter sp spl tx txl st stl u) stl ctc) := by
  obtain ⟨_, _, _, hml, hhc, hca, _, _, _, _, _⟩ :=
    initModel_ok_cases T sub lslCtor mtCtor asrCtor vocab_size token_list ctc
      src_vocab_size src_token_list asr_weight mt_weight mtlalpha
      ctc_sample_rate ignore_id lsm_weight length_normalized_loss
      report_cer report_wer report_bleu sym_space sym_blank
      extract_feats_in_collect_stats speech_attn training m hinit
  refine ⟨?_, ?_, ?_⟩
  · rw [hhc]
    simp
  · intro hml0
    have hhcf : m.has_ctc = false := by
      rw [hhc, hml0]
      simp
    refine ⟨hhcf, ?_⟩
    intro sp spl tx txl st? stl? u r h
    obtain ⟨st, stl, hst, hstl, _, hctc, hr⟩ :=
      Model.forward_ok_cases m sp spl tx txl st? stl? u r h
    have hmlz : m.mtlalpha = 0 := by rw [hml, hml0]
    have hnot : ¬ (0 < m.mtlalpha) := by
      rw [hmlz]
      exact lt_irrefl 0
    have hds : m.doSamp u = false := by
      by_contra hd
      have hdt : m.doSamp u = true := by simpa using hd
      have := hctc (Or.inl hdt)
      rw [hhcf] at this
      exact Bool.noConfusion this
    have hctcB : (m.inter sp spl tx txl st stl u).ctcB = ⟨PyNum.pint 0, none⟩ := by
      rw [Model.inter_ctcB_eq, if_neg hnot]
    refine ⟨st, stl, hst, hstl, hctcB, ?_, ?_⟩
    · have hw : (if m.doSamp u = true then (1 : ℚ) else m.mtlalpha) = 0 := by
        rw [hds]
        simp [hmlz]
      rw [Model.inter_loss_asr_eq, Model.inter_asr_ctc_weight, if_pos hw]
    · rw [hr, Model.forwardPure_stats_cer_ctc, hctcB]
  · intro hmlpos
    intro sp spl tx txl st? stl? u r h
    obtain ⟨st, stl, hst, hstl, _, _, _⟩ :=
      Model.forward_ok_cases m sp spl tx txl st? stl? u r h
    have hpos : 0 < m.mtlalpha := by
      rw [hml]
      exact hmlpos
    refine ⟨st, stl, hst, hstl, ?_, ?_⟩
    · rw [Model.inter_ctcB_eq, if_pos hpos]
    · rw [Model.inter_ctcB_eq, if_pos hpos, ← hca]
      rfl

namespace Model

variable {T : Type}

theorem forwardPure_stats_detached (m : Model T) (sp : T) (spl : Lens)
    (tx : Toks) (txl : Lens) (st : Toks) (stl : Lens) (u : ℚ) :
    (m.forwardPure sp spl tx txl st stl u).stats =
      [("loss", StatVal.num (m.inter sp spl tx txl st stl u).loss.detach),
       ("loss_asr", StatVal.num (m.inter sp spl tx txl st stl u).loss_asr.detach),
       ("loss_st", StatVal.num (m.inter sp spl tx txl st stl u).loss_st.detach),
       ("acc_asr", StatVal.metric (m.inter sp spl tx txl st stl u).asrB.acc_asr_att),
       ("acc", StatVal.metric (some (m.inter sp spl tx txl st stl u).mt.acc_att)),
       ("cer_ctc", StatVal.metric (m.inter sp spl tx txl st stl u).ctcB.cer_ctc),
       ("cer", StatVal.metric (m.inter sp spl tx txl st stl u).asrB.cer_asr_att),
       ("wer", StatVal.metric (m.inter sp spl tx txl st stl u).asrB.wer_asr_att),
       ("bleu", StatVal.metric (m.inter sp spl tx txl st stl u).mt.bleu_att)] := by
  have hnf : (m.inter sp spl tx txl st stl u).loss_asr.isFloat = false := by
    rw [Model.inter_loss_asr_tensor]
    rfl
  simp [Model.forwardPure, hnf]

end Model

/-- Claim C7: every returning forward call yields a triple
`(loss, stats, weight)` in which `loss` is the one combined scalar
objective, `weight` equals the batch size `speech.shape[0]`, and `stats`
holds `loss`, `loss_asr`, `loss_st` detached from the autograd graph
followed by the metrics `acc_asr`, `acc`, `cer_ctc`, `cer`, `wer`,
`bleu`. -/
theorem C7_output_triple (T : Type) (m : Model T) (sp : T) (spl : Lens)
    (tx : Toks) (txl : Lens) (st? : Option Toks) (stl? : Option Lens) (u : ℚ)
    (r : FwdOut) (h : m.forward sp spl tx txl st? stl? u = Except.ok r) :
    ∃ st stl, st? = some st ∧ stl? = some stl ∧
      outputTripleSpec T m (m.inter sp spl tx txl st stl u) r sp := by
  obtain ⟨st, stl, hst, hstl, _, _, hr⟩ :=
    Model.forward_ok_cases m sp spl tx txl st? stl? u r h
  subst hr
  refine ⟨st, stl, hst, hstl, ?_, rfl, ?_, ?_,
    PyNum.gradOf_detach _, PyNum.gradOf_detach _, PyNum.gradOf_detach _⟩
  · rw [Model.forwardPure_weight, Model.inter_batch_size]
  · exact Model.forwardPure_stats_detached m sp spl tx txl st stl u
  · rw [Model.forwardPure_stats_detached m sp spl tx txl st stl u]
    rfl

theorem getD_map_lt {α β : Type} (f : α → β) (l : List α) (t : ℕ) (da : α)
    (db : β) (ht : t < l.length) : (l.map f).getD t db = f (l.getD t da) := by
  simp [List.getD_eq_getElem?_getD, List.getElem?_map, List.getElem?_eq_getElem ht]

/-- Claim C8: `LinearDecoder.forward` on any `[Batch, T, F]` input and any
`ilens` returns exactly the affine map of its single
`Linear(encoder_output_size, num_labels)` layer applied to the input —
logits of shape `[Batch, T, num_labels]`, unaffected by `ilens` — and the
`num_labels` property returns the value fixed at construction (2 under the
source's default argument). -/
theorem C8_linear_decoder (es nl : ℕ) (w : ℕ → ℕ → ℚ) (b : ℕ → ℚ)
    (input : List (List (List ℚ))) (ilens ilens' : List ℕ) (k t : ℕ)
    (hk : k < input.length) (ht : t < (input.getD k []).length) :
    ((LinearDecoder.init es nl w b).forward input ilens
      = input.map (fun bt => bt.map (fun x =>
          affineQ (LinearDecoder.init es nl w b).weight
            (LinearDecoder.init es nl w b).bias x))) ∧
    ((LinearDecoder.init es nl w b).forward input ilens
      = (LinearDecoder.init es nl w b).forward input ilens') ∧
    ((LinearDecoder.init es nl w b).forward input ilens).length = input.length ∧
    (((LinearDecoder.init es nl w b).forward input ilens).getD k []).length
      = (input.getD k []).length ∧
    ((((LinearDecoder.init es nl w b).forward input ilens).getD k []).getD t []).length
      = nl ∧
    (LinearDecoder.init es nl w b).num_labels = nl ∧
    (LinearDecoder.initDefault es w b).num_labels = 2 := by
  have hrow : ((LinearDecoder.init es nl w b).forward input ilens).getD k []
      = (input.getD k []).map (fun x =>
          affineQ (LinearDecoder.init es nl w b).weight
            (LinearDecoder.init es nl w b).bias x) := by
    simp [LinearDecoder.forward, List.getD_eq_getElem?_getD, List.getElem?_map,
      List.getElem?_eq_getElem hk]
  refine ⟨rfl, rfl, by simp [LinearDecoder.forward], ?_, ?_, rfl, rfl⟩
  · rw [hrow]
    simp
  · rw [hrow, getD_map_lt _ _ t [] [] ht]
    simp [affineQ, LinearDecoder.init]

/-- Claim C9: construction of `ESPnetSTMDSampModel` succeeds only under the
assertion preconditions `0.0 < asr_weight < 1.0`, `0.0 <= mt_weight < 1.0`
and `0.0 <= mtlalpha < 1.0`, raising AssertionError otherwise; in
particular, the constructor's own default `asr_weight = 0.0` is
rejected. -/
theorem C9_constructor_assertions (T : Type) (sub : Submods T)
    (lslCtor : ℤ → ℤ → ℚ → Bool → (T → Toks → ℚ))
    (mtCtor : List String → String → String → Bool → (Toks → Toks → ℚ))
    (asrCtor : List String → String → String → Bool → Bool → ASRErrCalc)
    (vocab_size : ℤ) (token_list : List String) (ctc : CTCMod T)
    (src_vocab_size : ℤ) (src_token_list : List String)
    (asr_weight mt_weight mtlalpha ctc_sample_rate : ℚ)
    (ignore_id : ℤ) (lsm_weight : ℚ) (length_normalized_loss : Bool)
    (report_cer report_wer report_bleu : Bool)
    (sym_space sym_blank : String)
    (extract_feats_in_collect_stats speech_attn training : Bool) :
    ((∃ m, initModel T sub lslCtor mtCtor asrCtor vocab_size token_list ctc
        src_vocab_size src_token_list asr_weight mt_weight mtlalpha
        ctc_sample_rate ignore_id lsm_weight length_normalized_loss
        report_cer report_wer report_bleu sym_space sym_blank
        extract_feats_in_collect_stats speech_attn training = Except.ok m) ↔
      (0 < asr_weight ∧ asr_weight < 1 ∧ 0 ≤ mt_weight ∧ mt_weight < 1 ∧
        0 ≤ mtlalpha ∧ mtlalpha < 1)) ∧
    (¬ (0 < asr_weight ∧ asr_weight < 1 ∧ 0 ≤ mt_weight ∧ mt_weight < 1 ∧
        0 ≤ mtlalpha ∧ mtlalpha < 1) →
      initModel T sub lslCtor mtCtor asrCtor vocab_size token_list ctc
        src_vocab_size src_token_list asr_weight mt_weight mtlalpha
        ctc_sample_rate ignore_id lsm_weight length_normalized_loss
        report_cer report_wer report_bleu sym_space sym_blank
        extract_feats_in_collect_stats speech_attn training
        = Except.error PyErr.assertionError) ∧
    initModel T sub lslCtor mtCtor asrCtor vocab_size token_list ctc
      src_vocab_size src_token_list 0 mt_weight mtlalpha
      ctc_sample_rate ignore_id lsm_weight length_normalized_loss
      report_cer report_wer report_bleu sym_space sym_blank
      extract_feats_in_collect_stats speech_attn training
      = Except.error PyErr.assertionError := by
  refine ⟨⟨?_, ?_⟩, ?_, ?_⟩
  · rintro ⟨m, hm⟩
    obtain ⟨⟨h1, h2⟩, ⟨h3, h4⟩, ⟨h5, h6⟩, _⟩ :=
      initModel_ok_cases T sub lslCtor mtCtor asrCtor vocab_size token_list ctc
        src_vocab_size src_token_list asr_weight mt_weight mtlalpha
        ctc_sample_rate ignore_id lsm_weight length_normalized_loss
        report_cer report_wer report_bleu sym_space sym_blank
        extract_feats_in_collect_stats speech_attn training m hm
    exact ⟨h1, h2, h3, h4, h5, h6⟩
  · rintro ⟨h1, h2, h3, h4, h5, h6⟩
    rcases hres : initModel T sub lslCtor mtCtor asrCtor vocab_size token_list ctc
        src_vocab_size src_token_list asr_weight mt_weight mtlalpha
        ctc_sample_rate ignore_id lsm_weight length_normalized_loss
        report_cer report_wer report_bleu sym_space sym_blank
        extract_feats_in_collect_stats speech_attn training with e | mm
    · exfalso
      unfold initModel at hres
      rw [if_pos ⟨h1, h2⟩, if_pos ⟨h3, h4⟩, if_pos ⟨h5, h6⟩] at hres
      exact Except.noConfusion hres
    · exact ⟨mm, rfl⟩
  · intro hneg
    unfold initModel
    split_ifs with ha hb hc
    · exact absurd ⟨ha.1, ha.2, hb.1, hb.2, hc.1, hc.2⟩ hneg
    · rfl
    · rfl
    · rfl
  · unfold initModel
    rw [if_neg (by norm_num)]

/-- Claim C10: the `mt_weight` parameter is stored but has no effect on any
observable output of `forward`: two models identical except for
`mt_weight` produce, for the same inputs, training mode and random draw,
exactly the same `(loss, stats, weight)` result. -/
theorem C10_mt_weight_unobservable (T : Type) (m : Model T) (w' : ℚ) (sp : T)
    (spl : Lens) (tx : Toks) (txl : Lens) (st? : Option Toks)
    (stl? : Option Lens) (u : ℚ) :
    ({ m with mt_weight := w' } : Model T).mt_weight = w' ∧
    ({ m with mt_weight := w' } : Model T).forward sp spl tx txl st? stl? u
      = m.forward sp spl tx txl st? stl? u := by
  cases m
  exact ⟨rfl, rfl⟩

/-! ## Witnesses -/

theorem C1_loss_composition_witness :
    (mTeach.forwardPure () [1] [[1]] [1] [[1, 2]] [2] (0 : ℚ)).loss
      = PyNum.tensor ((1 - mTeach.asr_weight)
          * (mTeach.inter () [1] [[1]] [1] [[1, 2]] [2] (0 : ℚ)).loss_st.val
        + mTeach.asr_weight
          * (mTeach.inter () [1] [[1]] [1] [[1, 2]] [2] (0 : ℚ)).loss_asr.val)
        true := by
  obtain ⟨st, stl, hst, hstl, hspec⟩ := C1_loss_composition Unit mTeach () [1]
    [[1]] [1] (some [[1, 2]]) (some [2]) (0 : ℚ)
    (mTeach.forwardPure () [1] [[1]] [1] [[1, 2]] [2] (0 : ℚ)) rfl
  obtain rfl : st = [[1, 2]] := (Option.some.inj hst).symm
  obtain rfl : stl = [2] := (Option.some.inj hstl).symm
  exact hspec.1

theorem C2_sampling_switch_witness :
    (mSamp.inter () [1] [[1]] [1] [[1, 2]] [2] (0 : ℚ)).asrB.acc_asr_att
      = none := by
  obtain ⟨st, stl, hst, hstl, hspec⟩ := C2_sampling_switch Unit mSamp () [1]
    [[1]] [1] (some [[1, 2]]) (some [2]) (0 : ℚ)
    (mSamp.forwardPure () [1] [[1]] [1] [[1, 2]] [2] (0 : ℚ)) rfl
  obtain rfl : st = [[1, 2]] := (Option.some.inj hst).symm
  obtain rfl : stl = [2] := (Option.some.inj hstl).symm
  rw [hspec.2.1 rfl]

theorem C3_requires_speech_attn_witness :
    mNoAttn.forward () [1] [[1]] [1] (some [[1, 2]]) (some [2]) (0 : ℚ)
      = Except.error PyErr.nameError :=
  (C3_requires_speech_attn Unit mNoAttn () [1] [[1]] [1] (some [[1, 2]])
      (some [2]) (0 : ℚ) rfl).2 [[1, 2]] [2] rfl rfl (by decide) (by decide)
    (by decide)

theorem C4_sampling_transcript_witness :
    (mSamp.inter () [1] [[1]] [1] [[1, 2]] [2] (0 : ℚ)).ys_hat
      = padSequence (sampRows (mSamp.ctc_arg.argmax
          (mSamp.inter () [1] [[1]] [1] [[1, 2]] [2] (0 : ℚ)).encoder_out)
          (mSamp.inter () [1] [[1]] [1] [[1, 2]] [2] (0 : ℚ)).src_text)
          (-1) := by
  obtain ⟨st, stl, hst, hstl, hspec⟩ := C4_sampling_transcript Unit mSamp () [1]
    [[1]] [1] (some [[1, 2]]) (some [2]) (0 : ℚ)
    (mSamp.forwardPure () [1] [[1]] [1] [[1, 2]] [2] (0 : ℚ)) rfl rfl
  obtain rfl : st = [[1, 2]] := (Option.some.inj hst).symm
  obtain rfl : stl = [2] := (Option.some.inj hstl).symm
  exact hspec.1

theorem C5_two_decoder_routing_witness :
    (mTeach.inter () [1] [[1]] [1] [[1, 2]] [2] (0 : ℚ)).encoder_mt_out
      = (mTeach.sub.encoder_mt
          (mTeach.inter () [1] [[1]] [1] [[1, 2]] [2] (0 : ℚ)).asrB.hs_dec_asr
          (mTeach.inter () [1] [[1]] [1]
            [[1, 2]] [2] (0 : ℚ)).asrB.dec_asr_lengths).1 := by
  obtain ⟨st, stl, hst, hstl, hspec⟩ := C5_two_decoder_routing Unit mTeach () [1]
    [[1]] [1] (some [[1, 2]]) (some [2]) (0 : ℚ)
    (mTeach.forwardPure () [1] [[1]] [1] [[1, 2]] [2] (0 : ℚ)) rfl
  obtain rfl : st = [[1, 2]] := (Option.some.inj hst).symm
  obtain rfl : stl = [2] := (Option.some.inj hstl).symm
  exact hspec.2.2.2.1

theorem C6_ctc_branch_witness : mInit6.has_ctc = true :=
  ((C6_ctc_branch Unit wSub wLsl wMtC wAsrC 5 [] wCtc 4 [] (mkRat 1 2) 0 (mkRat 1 2) 0 (-1) 0
      false true true false "" "" true true false mInit6 rfl).1).mpr (by decide)

theorem C7_output_triple_witness :
    (mTeach.forwardPure () [1] [[1]] [1] [[1, 2]] [2] (0 : ℚ)).weight
      = mTeach.sub.shape0 () := by
  obtain ⟨st, stl, hst, hstl, hspec⟩ := C7_output_triple Unit mTeach () [1]
    [[1]] [1] (some [[1, 2]]) (some [2]) (0 : ℚ)
    (mTeach.forwardPure () [1] [[1]] [1] [[1, 2]] [2] (0 : ℚ)) rfl
  exact hspec.1

theorem C8_linear_decoder_witness :
    ((((LinearDecoder.init 1 2 (fun _ _ => 1) (fun _ => 0)).forward
        [[[3]]] [1]).getD 0 []).getD 0 []).length = 2 :=
  (C8_linear_decoder 1 2 (fun _ _ => 1) (fun _ => 0) [[[3]]] [1] [2] 0 0
    (by decide) (by decide)).2.2.2.2.1

theorem C9_constructor_assertions_witness :
    initModel Unit wSub wLsl wMtC wAsrC 5 [] wCtc 4 [] 0 0 0 0 (-1) 0 false
      true true false "" "" true true false
      = Except.error PyErr.assertionError :=
  (C9_constructor_assertions Unit wSub wLsl wMtC wAsrC 5 [] wCtc 4 [] 0 0 0 0
    (-1) 0 false true true false "" "" true true false).2.2

